import Mathlib

/-!
Verification development for the `python-arknorli` book-price scraper.

The repository's core is `src/api/index.py`: three site adapters
(`ArkScraper`, `NorliScraper`, `AdlibrisScraper`), each a `parse_html` over
rendered HTML, and the orchestrator `scrape_book_data` plus the HTTP entry
`RequestHandler.do_GET`.

The embedding below models:
  * the Python string primitives the adapters use (`strip`, `replace`,
    `split`, `isdigit`, `int`, substring test) as structural functions over
    `List Char`, so that everything evaluates by `decide`;
  * each adapter's BeautifulSoup queries as a per-adapter record of the
    query results (an element is `Option` of its text / attributes), and the
    adapter body as an `Except`-valued function whose `.error` points are
    exactly the Python statements that can raise inside the adapter's
    `try:` block (unchecked attribute access, the Adlibris file write);
  * the orchestrator as a fold over the registry, the renderer + per-site
    scrape of one site abstracted as an `Option SiteResult` oracle
    (`none` = the site's `try:` body raised);
  * the serialized JSON shape of the response (key names and nesting), so
    that statements about the record's top-level fields are expressible.
-/

/-! ## Python string primitives, structurally over `List Char` -/

/-- Python `str.strip()` (whitespace from both ends). -/
def pyStrip (s : String) : String :=
  ⟨((s.data.dropWhile Char.isWhitespace).reverse.dropWhile Char.isWhitespace).reverse⟩

/-- Helper for `pyReplace`: walk the list; when the skip counter is positive
the character belongs to an already-replaced occurrence and is dropped;
at skip 0, a pattern occurrence emits the replacement and skips the rest
of the occurrence. This is Python `str.replace`'s leftmost,
non-overlapping scan. -/
def pyReplaceAux (pat rep : List Char) : List Char → Nat → List Char
  | [], _ => []
  | _ :: rest, Nat.succ k => pyReplaceAux pat rep rest k
  | c :: rest, 0 =>
    if pat.isPrefixOf (c :: rest) then
      rep ++ pyReplaceAux pat rep rest (pat.length - 1)
    else
      c :: pyReplaceAux pat rep rest 0

/-- Python `s.replace(pat, rep)` for a non-empty `pat`: every (leftmost,
non-overlapping) occurrence is replaced, not only a trailing one. -/
def pyReplace (s pat rep : String) : String :=
  if pat.data.isEmpty then s else ⟨pyReplaceAux pat.data rep.data s.data 0⟩

/-- Helper for `pyContains`: does `pat` occur as a contiguous sublist? -/
def hasSubList (pat : List Char) : List Char → Bool
  | [] => pat.isEmpty
  | c :: rest => pat.isPrefixOf (c :: rest) || hasSubList pat rest

/-- Python `pat in s` (substring test). -/
def pyContains (s pat : String) : Bool :=
  hasSubList pat.data s.data

/-- Python `str.isdigit()` over ASCII: non-empty and all characters digits. -/
def pyIsDigit (s : String) : Bool :=
  !s.data.isEmpty && s.data.all Char.isDigit

/-- Python `int(s)` on an all-digit string. -/
def pyToNat (s : String) : Nat :=
  s.data.foldl (fun n c => n * 10 + (c.toNat - '0'.toNat)) 0

/-- The idiom `int(price) if price.isdigit() else 0` shared by all three
adapters. -/
def pyInt (s : String) : Nat :=
  if pyIsDigit s then pyToNat s else 0

/-- Helper for `pySplitWs`: split on whitespace runs, dropping empties
(Python `str.split()` with no argument). -/
def pySplitWsAux : List Char → List Char → List (List Char)
  | [], acc => if acc.isEmpty then [] else [acc.reverse]
  | c :: rest, acc =>
    if c.isWhitespace then
      if acc.isEmpty then pySplitWsAux rest [] else acc.reverse :: pySplitWsAux rest []
    else
      pySplitWsAux rest (c :: acc)

/-- Python `' '.join(s.split())`: collapse all whitespace runs to single
spaces and trim the ends (used by the Adlibris adapter). -/
def normSpaces (s : String) : String :=
  String.intercalate " " ((pySplitWsAux s.data []).map fun l => (⟨l⟩ : String))

/-! ## Data model -/

/-- The per-site extraction outcome: the dict
`{"title": ..., "authors": ..., "PRICE": ..., "PRODUCT_URL": ...}`
every `parse_html` returns. -/
structure SiteResult where
  title : String
  authors : String
  price : Nat
  product_url : String
deriving Repr, DecidableEq

/-- The all-sentinel result
`{"title": "-", "authors": "-", "PRICE": 0, "PRODUCT_URL": "-"}`. -/
def sentinelResult : SiteResult :=
  { title := "-", authors := "-", price := 0, product_url := "-" }

/-! ## Ark adapter (`ArkScraper.parse_html`) -/

/-- The BeautifulSoup queries `ArkScraper.parse_html` performs, each as the
text (resp. attribute) of the found element, `none` when absent:
`soup.find('h1')`, `soup.find('h3')`, the authors `div`, the
`product-price-current` span, and the `href` of `price_span.find_next('a')`
(meaningful only when the price span exists, since the code only queries
it then). -/
structure ArkSoup where
  h1Text : Option String
  h3Text : Option String
  authorsDivText : Option String
  priceSpanText : Option String
  nextLinkHref : Option String
deriving Repr, DecidableEq

/-- `if not results_header or "1 resultat:" not in results_header.text`,
as a positive check: an `h1` exists and contains `"1 resultat:"`. -/
def arkIndicatorOk (s : ArkSoup) : Bool :=
  match s.h1Text with
  | some h => pyContains h "1 resultat:"
  | none => false

/-- Body of `ArkScraper.parse_html`'s `try:` block (it has no internal raise
point, so it never returns `.error`). -/
def arkBody (s : ArkSoup) : Except Unit SiteResult :=
  if arkIndicatorOk s then
    let title := match s.h3Text with | some t => pyStrip t | none => "-"
    let authors := match s.authorsDivText with | some a => pyStrip a | none => "-"
    let price := match s.priceSpanText with
      | some p => pyStrip (pyReplace (pyStrip p) ",-" "")
      | none => "0"
    let product_url := match s.priceSpanText, s.nextLinkHref with
      | some _, some h => "https://www.ark.no" ++ h
      | _, _ => ""
    .ok { title := title, authors := authors, price := pyInt price,
          product_url := if product_url ≠ "" then product_url else "-" }
  else
    .ok sentinelResult

/-- `ArkScraper.parse_html`: the `try:` body with the catch-all
`except Exception` returning the all-sentinel dict. -/
def arkParseHtml (s : ArkSoup) : SiteResult :=
  match arkBody s with
  | .ok r => r
  | .error _ => sentinelResult

example : arkParseHtml ⟨some "1 resultat:", some " T ", some "A", some " 349,- ", some "/produkt/x"⟩
    = ⟨"T", "A", 349, "https://www.ark.no/produkt/x"⟩ := by decide

example : arkParseHtml ⟨some "0 resultater", some "T", some "A", some "349,-", some "/x"⟩
    = sentinelResult := by decide

example : arkParseHtml ⟨some "1 resultat:", some "T", some "A", some "1,-2", none⟩
    = ⟨"T", "A", 12, "-"⟩ := by decide

/-! ## Norli adapter (`NorliScraper.parse_html`) -/

/-- The first `<a>` of the Norli product container: `product_div.find('a')`,
with its `aria-label` and `href` attributes (each may be absent, in which
case the Python subscript raises `KeyError`). -/
structure NorliAnchor where
  ariaLabel : Option String
  href : Option String
deriving Repr, DecidableEq

/-- The product container
`soup.find('div', class_=lambda x: x and 'item-imageWrapper-' in x)`
together with the anchor query performed on it. -/
structure NorliProductDiv where
  anchor : Option NorliAnchor
deriving Repr, DecidableEq

/-- The BeautifulSoup queries `NorliScraper.parse_html` performs:
the `ais-Stats-text` span, the product container, the
`itemNorli-authorName-` div and the `productPrice-price-` span. -/
structure NorliSoup where
  statsText : Option String
  productDiv : Option NorliProductDiv
  authorsDivText : Option String
  priceSpanText : Option String
deriving Repr, DecidableEq

/-- `if not stats_span or stats_span.text.strip() != "Produkter (1)"`,
as a positive check. -/
def norliIndicatorOk (s : NorliSoup) : Bool :=
  match s.statsText with
  | some st => pyStrip st == "Produkter (1)"
  | none => false

/-- Body of `NorliScraper.parse_html`'s `try:` block. The `.error` points are
the two unchecked attribute subscripts `product_div.find('a')['aria-label']`
and `product_div.find('a')['href']`, which raise `KeyError` when the anchor
exists but lacks the attribute. -/
def norliBody (s : NorliSoup) : Except Unit SiteResult :=
  if norliIndicatorOk s then
    match s.productDiv with
    | none => .ok sentinelResult
    | some d =>
      let authors := match s.authorsDivText with | some a => pyStrip a | none => "-"
      let price := match s.priceSpanText with
        | some p => pyStrip (pyReplace (pyStrip p) ",-" "")
        | none => "0"
      match d.anchor with
      | none =>
        .ok { title := "-", authors := authors, price := pyInt price, product_url := "-" }
      | some a =>
        match a.ariaLabel with
        | none => .error ()
        | some ttl =>
          match a.href with
          | none => .error ()
          | some u =>
            .ok { title := ttl, authors := authors, price := pyInt price,
                  product_url := if u ≠ "-" then "https://www.norli.no" ++ u else "-" }
  else
    .ok sentinelResult

/-- `NorliScraper.parse_html`: the `try:` body with the catch-all
`except Exception` returning the all-sentinel dict. -/
def norliParseHtml (s : NorliSoup) : SiteResult :=
  match norliBody s with
  | .ok r => r
  | .error _ => sentinelResult

example : norliParseHtml ⟨some " Produkter (1) ", some ⟨some ⟨some "T", some "/b"⟩⟩, some " A ", some "299,-"⟩
    = ⟨"T", "A", 299, "https://www.norli.no/b"⟩ := by decide

example : norliParseHtml ⟨some "Produkter (2)", some ⟨some ⟨some "T", some "/b"⟩⟩, some "A", some "299,-"⟩
    = sentinelResult := by decide

example : norliParseHtml ⟨some "Produkter (1)", some ⟨some ⟨none, some "/b"⟩⟩, some "A", some "299,-"⟩
    = sentinelResult := by decide

/-! ## Adlibris adapter (`AdlibrisScraper.parse_html`) -/

/-- The `search-result__product__name` link: its text and optional `href`
(the code checks `'href' in title_link.attrs` before subscripting, so no
raise point here). -/
structure AdlibrisTitleLink where
  text : String
  href : Option String
deriving Repr, DecidableEq

/-- The `search-result__list-view__product__wrapper` div and the queries on
it: title link, `itemprop=author` link, and the `<span>` of the
`price nok` div (`none` when the div or its span is absent, matching
`if price_div and price_div.find('span')`). -/
structure AdlibrisWrapper where
  titleLink : Option AdlibrisTitleLink
  authorLinkText : Option String
  priceSpanText : Option String
deriving Repr, DecidableEq

/-- The BeautifulSoup queries `AdlibrisScraper.parse_html` performs:
the `search-result__result__amount` heading and the product wrapper. -/
structure AdlibrisSoup where
  resultAmountText : Option String
  wrapper : Option AdlibrisWrapper
deriving Repr, DecidableEq

/-- The Adlibris "exactly one result" check: the results-amount heading
exists and its whitespace-normalized text is `"1 treff"` (the code's two
early sentinel returns, merged into one positive condition). -/
def adlibrisIndicatorOk (s : AdlibrisSoup) : Bool :=
  match s.resultAmountText with
  | some rt => normSpaces rt == "1 treff"
  | none => false

/-- Body of `AdlibrisScraper.parse_html`'s `try:` block. Its first statement
writes the whole HTML to `adlibris.html`; a failing write raises before any
extraction, modelled as the `.error` when `writeOk = false`. -/
def adlibrisBody (writeOk : Bool) (s : AdlibrisSoup) : Except Unit SiteResult :=
  if writeOk then
    if adlibrisIndicatorOk s then
      match s.wrapper with
      | none => .ok sentinelResult
      | some w =>
        let title := match w.titleLink with | some l => normSpaces l.text | none => "-"
        let authors := match w.authorLinkText with | some a => normSpaces a | none => "-"
        let price := match w.priceSpanText with
          | some p =>
            let pt := pyStrip (pyReplace (normSpaces p) ",-" "")
            if pyIsDigit pt then pt else "0"
          | none => "0"
        let product_url := match w.titleLink with
          | some l => match l.href with
            | some h => "https://www.adlibris.com" ++ h
            | none => "-"
          | none => "-"
        .ok { title := title, authors := authors, price := pyInt price,
              product_url := if product_url ≠ "-" then product_url else "-" }
    else
      .ok sentinelResult
  else
    .error ()

/-- `AdlibrisScraper.parse_html`: the `try:` body with the catch-all
`except Exception` returning the all-sentinel dict. -/
def adlibrisParseHtml (writeOk : Bool) (s : AdlibrisSoup) : SiteResult :=
  match adlibrisBody writeOk s with
  | .ok r => r
  | .error _ => sentinelResult

/-- The file-system effect of one adapter call. -/
inductive FileEffect where
  | write (path : String) (content : String) : FileEffect
deriving Repr, DecidableEq

/-- `AdlibrisScraper.parse_html` writes the entire rendered HTML to
`adlibris.html` (in the current working directory) before looking at the
DOM, unconditionally. -/
def adlibrisEffects (htmlContent : String) : List FileEffect :=
  [.write "adlibris.html" htmlContent]

/-- `ArkScraper.parse_html` performs no file write. -/
def arkEffects : List FileEffect := []

/-- `NorliScraper.parse_html` performs no file write. -/
def norliEffects : List FileEffect := []

example : adlibrisParseHtml true ⟨some " 1\n treff ", some ⟨some ⟨"En  bok", some "/b"⟩, some "A", some " 199,- "⟩⟩
    = ⟨"En bok", "A", 199, "https://www.adlibris.com/b"⟩ := by decide

example : adlibrisParseHtml true ⟨some "2 treff", some ⟨some ⟨"T", some "/b"⟩, some "A", some "199,-"⟩⟩
    = sentinelResult := by decide

example : adlibrisParseHtml false ⟨some "1 treff", some ⟨some ⟨"T", some "/b"⟩, some "A", some "199,-"⟩⟩
    = sentinelResult := by decide

/-! ## Orchestrator (`scrape_book_data`) -/

/-- The registry keys of the `sites` dict, in insertion order. -/
def siteNames : List String := ["ark.no", "norli.no", "adlibris.no"]

/-- The per-site search URL built by each registry lambda. -/
def searchUrl (site isbn : String) : String :=
  if site = "ark.no" then "https://www.ark.no/search?text=" ++ isbn
  else if site = "norli.no" then "https://www.norli.no/search?query=" ++ isbn
  else "https://www.adlibris.com/no/sok?q=" ++ isbn

/-- The `try:`/`except:` around one loop iteration: the renderer fetch plus
the adapter call for one site are abstracted as an `Option SiteResult`
oracle (`none` = something in the body raised), and an exception is
recorded as the all-sentinel entry. -/
def siteOutcomeResult (o : Option SiteResult) : SiteResult :=
  match o with
  | some r => r
  | none => sentinelResult

/-- The `for site_domain, ... in sites.items():` loop of `scrape_book_data`:
build up `response["SITES"]` one site at a time, in registry order. -/
def scrapeSites (outcome : String → Option SiteResult) : List (String × SiteResult) :=
  siteNames.foldl (fun acc n => acc ++ [(n, siteOutcomeResult (outcome n))]) []

/-- The orchestrator's response dict: exactly the keys `MESSAGE`, `ISBN`,
`TIMESTAMP`, `SITES` (there is no top-level title or authors field in the
code). -/
structure BookRecord where
  message : String
  isbn : String
  timestamp : String
  sites : List (String × SiteResult)
deriving Repr, DecidableEq

/-- `scrape_book_data(isbn)`: the initial response dict (message
`"Data fetch initiated"`, empty `SITES`), the per-site loop, then the final
assignments of `MESSAGE` and `TIMESTAMP`. The wall clock is the `now`
parameter; the renderer+adapter run for each site is the `outcome`
oracle. -/
def scrape_book_data (isbn now : String) (outcome : String → Option SiteResult) : BookRecord :=
  let response0 : BookRecord :=
    { message := "Data fetch initiated", isbn := isbn, timestamp := "", sites := [] }
  let response1 := { response0 with sites := scrapeSites outcome }
  { response1 with message := "Data fetched successfully", timestamp := now }

/-! ## Serialized JSON shape of the response -/

/-- JSON values, as far as the response needs them. -/
inductive JVal where
  | str (s : String) : JVal
  | num (n : Nat) : JVal
  | obj (members : List (String × JVal)) : JVal

/-- One `response["SITES"][site]` entry as written by the orchestrator:
keys `TITLE`, `AUTHORS`, `PRICE`, `PRODUCT_URL`. -/
def siteResultJson (r : SiteResult) : JVal :=
  .obj [("TITLE", .str r.title), ("AUTHORS", .str r.authors),
        ("PRICE", .num r.price), ("PRODUCT_URL", .str r.product_url)]

/-- The whole response as serialized by `json.dumps`: top-level keys
`MESSAGE`, `ISBN`, `TIMESTAMP`, `SITES`. -/
def bookRecordJson (r : BookRecord) : JVal :=
  .obj [("MESSAGE", .str r.message), ("ISBN", .str r.isbn),
        ("TIMESTAMP", .str r.timestamp),
        ("SITES", .obj (r.sites.map fun p => (p.1, siteResultJson p.2)))]

/-- The keys of a JSON object (empty for non-objects). -/
def topLevelKeys (j : JVal) : List String :=
  match j with
  | .obj l => l.map Prod.fst
  | _ => []

/-- The per-site titles of a response, in registry order. -/
def sitesTitles (r : BookRecord) : List String :=
  r.sites.map fun p => p.2.title

/-- The per-site authors strings of a response, in registry order. -/
def sitesAuthors (r : BookRecord) : List String :=
  r.sites.map fun p => p.2.authors

/-! ## HTTP entry point (`RequestHandler.do_GET`) -/

/-- The possible responses of `do_GET`. -/
inductive HttpResponse where
  | noContent : HttpResponse
  | clientError (code : Nat) (msg : String) : HttpResponse
  | okJson (body : JVal) : HttpResponse

/-- Is the response a 200 with a JSON body? -/
def HttpResponse.isOkJson : HttpResponse → Bool
  | .okJson _ => true
  | _ => false

/-- `parse_qs(query).get('ISBN', [None])[0]`: the first value of the key,
with blank values dropped (as `parse_qs` does by default), `none` when no
non-blank value exists. -/
def parse_qs_get (query : List (String × String)) (key : String) : Option String :=
  ((query.filter fun p => p.1 == key && !(p.2 == "")).map Prod.snd).head?

/-- `RequestHandler.do_GET`: a favicon request gets 204; a missing (or
blank, hence dropped) `ISBN` query parameter gets a 400 before any scraping;
otherwise `scrape_book_data` runs and its JSON is returned with 200. -/
def do_GET (path : String) (query : List (String × String)) (now : String)
    (outcome : String → Option SiteResult) : HttpResponse :=
  if path = "/favicon.ico" then .noContent
  else
    match parse_qs_get query "ISBN" with
    | none => .clientError 400 "Missing ISBN parameter"
    | some isbn => .okJson (bookRecordJson (scrape_book_data isbn now outcome))

/-! ## Aggregation, modelled from the spec

The specification (§3, §4.3) describes an Aggregator producing top-level
`title`/`authors` fields. No such code exists anywhere in the repository;
the definitions below follow the spec's words so that the claimed
aggregated values can be compared with what the code actually returns. -/

/-- Modelled from the spec: the Aggregator's `title` fold (spec §4.3),
absent from the source — "fold over all `SiteResult.title` values that are
not the sentinel; keep the value with the greatest character length seen so
far (strict-greater comparison)". -/
def specAggregateTitle (titles : List String) : String :=
  titles.foldl (fun best t => if t ≠ "-" ∧ t.length > best.length then t else best) ""

/-- Python `s.split(',')` (single-character separator, empties kept),
needed by the spec-modelled authors fold. -/
def pySplitCommaAux : List Char → List Char → List (List Char)
  | [], acc => [acc.reverse]
  | c :: rest, acc =>
    if c == ',' then acc.reverse :: pySplitCommaAux rest [] else pySplitCommaAux rest (c :: acc)

/-- Modelled from the spec: the Aggregator's `authors` fold (spec §4.3),
absent from the source — "fold over all non-sentinel `SiteResult.authors`,
split each on comma, trim whitespace per name, add to a set". The set is a
duplicate-free list in insertion order. -/
def specAggregateAuthors (l : List String) : List String :=
  (l.filter fun a => a ≠ "-").foldl
    (fun acc a =>
      ((pySplitCommaAux a.data []).map fun nm => pyStrip ⟨nm⟩).foldl
        (fun acc2 n => if acc2.contains n then acc2 else acc2 ++ [n]) acc)
    []

/-- Modelled from the spec: "join the set with `", "` in the end". -/
def specAggregateAuthorsJoined (l : List String) : String :=
  String.intercalate ", " (specAggregateAuthors l)

/-- Modelled from the spec/claim wording of price normalization, for
comparison with the code: "removes a trailing `,-` currency marker and
surrounding whitespace and parses the remainder as a number only if it
consists entirely of digits, yielding 0 otherwise". -/
def specTrailingPrice (t : String) : Nat :=
  let t1 := pyStrip t
  let t2 : String :=
    if ['-', ','].isPrefixOf t1.data.reverse then ⟨t1.data.take (t1.data.length - 2)⟩ else t1
  pyInt (pyStrip t2)

example : specAggregateTitle ["Foo", "-", "Foobar"] = "Foobar" := by decide
example : specAggregateAuthorsJoined ["Jane Doe, John Smith", "John Smith", "-"]
    = "Jane Doe, John Smith" := by decide
example : specTrailingPrice " 349,- " = 349 := by decide
example : specTrailingPrice "1,-2" = 0 := by decide
example : scrape_book_data "x" "t" (fun _ => none)
    = ⟨"Data fetched successfully", "x", "t",
       [("ark.no", sentinelResult), ("norli.no", sentinelResult), ("adlibris.no", sentinelResult)]⟩ := by decide

/-! ## Shared lemmas -/

/-- The orchestrator loop visits every registered site once, in order, and
stores the (possibly degraded) result under the site's name. -/
theorem scrapeSites_eq (outcome : String → Option SiteResult) :
    scrapeSites outcome = siteNames.map fun n => (n, siteOutcomeResult (outcome n)) := by
  simp [scrapeSites, siteNames]

/-- The `sites` mapping of any orchestration run. -/
theorem scrape_book_data_sites (isbn now : String) (outcome : String → Option SiteResult) :
    (scrape_book_data isbn now outcome).sites
      = siteNames.map fun n => (n, siteOutcomeResult (outcome n)) := by
  simp [scrape_book_data, scrapeSites_eq]

/-! ## Claims -/

/-- Oracle for the C1 counterexample run: Ark and Norli succeed with
non-sentinel titles of different lengths, Adlibris raises. -/
def outcomeC1 : String → Option SiteResult := fun n =>
  if n == "ark.no" then some ⟨"Foo", "Jane Doe", 349, "https://www.ark.no/p/1"⟩
  else if n == "norli.no" then some ⟨"Foobar", "Jane Doe", 299, "https://www.norli.no/p/1"⟩
  else none

/-- C1, counterexample: on a run with non-sentinel per-site titles, the
spec-side longest-title aggregation would yield `"Foobar"`, but the returned
record has no top-level title field at all — its top-level keys are exactly
`MESSAGE`, `ISBN`, `TIMESTAMP`, `SITES`. -/
theorem C1_counterexample :
    "TITLE" ∉ topLevelKeys (bookRecordJson (scrape_book_data "9788203364881" "2025-01-01 00:00:00" outcomeC1)) ∧
    topLevelKeys (bookRecordJson (scrape_book_data "9788203364881" "2025-01-01 00:00:00" outcomeC1))
      = ["MESSAGE", "ISBN", "TIMESTAMP", "SITES"] ∧
    specAggregateTitle (sitesTitles (scrape_book_data "9788203364881" "2025-01-01 00:00:00" outcomeC1))
      = "Foobar" := by
  decide

/-- C1 (amended): for every orchestration run the returned record contains
no top-level title field — its top-level keys are exactly `MESSAGE`,
`ISBN`, `TIMESTAMP`, `SITES` — and per-site titles appear only inside the
`SITES` mapping, one per registered adapter; no longest-title aggregation
is performed. -/
theorem C1_no_toplevel_title (isbn now : String) (outcome : String → Option SiteResult) :
    topLevelKeys (bookRecordJson (scrape_book_data isbn now outcome))
      = ["MESSAGE", "ISBN", "TIMESTAMP", "SITES"] ∧
    sitesTitles (scrape_book_data isbn now outcome)
      = siteNames.map fun n => (siteOutcomeResult (outcome n)).title := by
  refine ⟨rfl, ?_⟩
  simp [sitesTitles, scrape_book_data_sites, siteNames]

/-- Oracle for the C2 counterexample run: two sites return author lists
sharing a name. -/
def outcomeC2 : String → Option SiteResult := fun n =>
  if n == "ark.no" then some ⟨"Foo", "Jane Doe, John Smith", 349, "https://www.ark.no/p/1"⟩
  else if n == "norli.no" then some ⟨"Foo", "John Smith", 299, "https://www.norli.no/p/1"⟩
  else none

/-- C2, counterexample: on a run where two sites report overlapping author
lists, the spec-side union would be `"Jane Doe, John Smith"`, but the
returned record has no top-level authors field at all — its top-level keys
are exactly `MESSAGE`, `ISBN`, `TIMESTAMP`, `SITES`. -/
theorem C2_counterexample :
    "AUTHORS" ∉ topLevelKeys (bookRecordJson (scrape_book_data "9788203364881" "2025-01-01 00:00:00" outcomeC2)) ∧
    topLevelKeys (bookRecordJson (scrape_book_data "9788203364881" "2025-01-01 00:00:00" outcomeC2))
      = ["MESSAGE", "ISBN", "TIMESTAMP", "SITES"] ∧
    specAggregateAuthorsJoined (sitesAuthors (scrape_book_data "9788203364881" "2025-01-01 00:00:00" outcomeC2))
      = "Jane Doe, John Smith" := by
  decide

/-- C2 (amended): for every orchestration run the returned record contains
no top-level authors field — its top-level keys are exactly `MESSAGE`,
`ISBN`, `TIMESTAMP`, `SITES` — and per-site authors strings appear only
inside the `SITES` mapping, one per registered adapter; no author-set union
is performed. -/
theorem C2_no_toplevel_authors (isbn now : String) (outcome : String → Option SiteResult) :
    topLevelKeys (bookRecordJson (scrape_book_data isbn now outcome))
      = ["MESSAGE", "ISBN", "TIMESTAMP", "SITES"] ∧
    sitesAuthors (scrape_book_data isbn now outcome)
      = siteNames.map fun n => (siteOutcomeResult (outcome n)).authors := by
  refine ⟨rfl, ?_⟩
  simp [sitesAuthors, scrape_book_data_sites, siteNames]

/-- C3: for every DOM and each of the three adapters, `parse_html` is a
total function (it never propagates an exception): every call returns
either the successfully extracted result of the adapter's body, or — when
the body raises — exactly the all-sentinel record
`{title "-", authors "-", price 0, product URL "-"}`, so all four fields
are always present. -/
theorem C3_extract_total (sA : ArkSoup) (sN : NorliSoup) (w : Bool) (sAd : AdlibrisSoup) :
    (arkParseHtml sA = sentinelResult ∨ arkBody sA = .ok (arkParseHtml sA)) ∧
    (norliParseHtml sN = sentinelResult ∨ norliBody sN = .ok (norliParseHtml sN)) ∧
    (adlibrisParseHtml w sAd = sentinelResult ∨
      adlibrisBody w sAd = .ok (adlibrisParseHtml w sAd)) ∧
    sentinelResult = ⟨"-", "-", 0, "-"⟩ := by
  refine ⟨?_, ?_, ?_, rfl⟩
  · cases h : arkBody sA with
    | ok r => exact Or.inr (by simp [arkParseHtml, h])
    | error e => exact Or.inl (by simp [arkParseHtml, h])
  · cases h : norliBody sN with
    | ok r => exact Or.inr (by simp [norliParseHtml, h])
    | error e => exact Or.inl (by simp [norliParseHtml, h])
  · cases h : adlibrisBody w sAd with
    | ok r => exact Or.inr (by simp [adlibrisParseHtml, h])
    | error e => exact Or.inl (by simp [adlibrisParseHtml, h])

/-- C4: for every orchestration run, the `sites` mapping has exactly one
entry per registered adapter, in registry order; a site whose renderer or
extraction raised (`outcome` = `none`) is recorded as the all-sentinel
result and the remaining adapters still get their entries. -/
theorem C4_failure_isolation (isbn now : String) (outcome : String → Option SiteResult) :
    (scrape_book_data isbn now outcome).sites
      = siteNames.map (fun n => (n, siteOutcomeResult (outcome n))) ∧
    (scrape_book_data isbn now outcome).sites.map Prod.fst = siteNames ∧
    siteOutcomeResult none = sentinelResult := by
  refine ⟨scrape_book_data_sites isbn now outcome, ?_, rfl⟩
  simp [scrape_book_data_sites, siteNames]

/-- C5, counterexample: single-element absence does not only hit the
corresponding field. In the Ark adapter the product link is located via
`price_span.find_next('a')`, so removing only the price element (the link
still being present) degrades two fields at once — price to `0` and product
URL to `"-"`. In the Norli adapter the title and the product URL both come
from `product_div.find('a')`, so removing only that anchor degrades both to
`"-"`; and an anchor that is present but lacks its `aria-label` attribute
raises a `KeyError` that collapses the whole extraction to the all-sentinel
result, authors and price included. -/
theorem C5_counterexample :
    arkParseHtml ⟨some "1 resultat:", some "T", some "A", some "349,-", some "/produkt/x"⟩
      = ⟨"T", "A", 349, "https://www.ark.no/produkt/x"⟩ ∧
    arkParseHtml ⟨some "1 resultat:", some "T", some "A", none, some "/produkt/x"⟩
      = ⟨"T", "A", 0, "-"⟩ ∧
    norliParseHtml ⟨some "Produkter (1)", some ⟨some ⟨some "T", some "/b"⟩⟩, some "A", some "299,-"⟩
      = ⟨"T", "A", 299, "https://www.norli.no/b"⟩ ∧
    norliParseHtml ⟨some "Produkter (1)", some ⟨none⟩, some "A", some "299,-"⟩
      = ⟨"-", "A", 299, "-"⟩ ∧
    norliParseHtml ⟨some "Produkter (1)", some ⟨some ⟨none, some "/b"⟩⟩, some "A", some "299,-"⟩
      = sentinelResult := by
  decide

/-- C5 (amended): under the exactly-one-result precondition, the absence of
the authors element, the price element (in Norli), or the title element (in
Ark) changes only that field to its sentinel, the other fields being
extracted unchanged; but fields located through a shared element degrade
together: in Ark the product link is found relative to the price element,
so a missing price element forces both price `0` and product URL `"-"`; in
Norli the title and the product URL both come from the product container's
anchor, so a missing anchor forces both to `"-"` (authors and price still
extracted), while an anchor that is present but lacks its `aria-label` or
`href` attribute raises a `KeyError` that collapses the whole extraction to
the all-sentinel result. -/
theorem C5_field_isolation (h1 t a p l : String) (hA : pyContains h1 "1 resultat:" = true)
    (st ttl hrf au pr : String) (hN : pyStrip st = "Produkter (1)") :
    arkParseHtml ⟨some h1, none, some a, some p, some l⟩
      = { arkParseHtml ⟨some h1, some t, some a, some p, some l⟩ with title := "-" } ∧
    arkParseHtml ⟨some h1, some t, none, some p, some l⟩
      = { arkParseHtml ⟨some h1, some t, some a, some p, some l⟩ with authors := "-" } ∧
    arkParseHtml ⟨some h1, some t, some a, none, some l⟩
      = { arkParseHtml ⟨some h1, some t, some a, some p, some l⟩ with
          price := 0, product_url := "-" } ∧
    norliParseHtml ⟨some st, some ⟨some ⟨some ttl, some hrf⟩⟩, none, some pr⟩
      = { norliParseHtml ⟨some st, some ⟨some ⟨some ttl, some hrf⟩⟩, some au, some pr⟩ with
          authors := "-" } ∧
    norliParseHtml ⟨some st, some ⟨some ⟨some ttl, some hrf⟩⟩, some au, none⟩
      = { norliParseHtml ⟨some st, some ⟨some ⟨some ttl, some hrf⟩⟩, some au, some pr⟩ with
          price := 0 } ∧
    norliParseHtml ⟨some st, some ⟨none⟩, some au, some pr⟩
      = { norliParseHtml ⟨some st, some ⟨some ⟨some ttl, some hrf⟩⟩, some au, some pr⟩ with
          title := "-", product_url := "-" } ∧
    norliParseHtml ⟨some st, some ⟨some ⟨none, some hrf⟩⟩, some au, some pr⟩
      = sentinelResult ∧
    norliParseHtml ⟨some st, some ⟨some ⟨some ttl, none⟩⟩, some au, some pr⟩
      = sentinelResult := by
  have h0 : pyInt "0" = 0 := by decide
  refine ⟨?_, ?_, ?_, ?_, ?_, ?_, ?_, ?_⟩ <;>
    simp [arkParseHtml, arkBody, arkIndicatorOk, hA,
          norliParseHtml, norliBody, norliIndicatorOk, hN, h0]

/-- C5, witness: the amended field-isolation statement at concrete pages. -/
theorem C5_field_isolation_witness :
    arkParseHtml ⟨some "1 resultat:", none, some "A", some "349,-", some "/x"⟩
      = { arkParseHtml ⟨some "1 resultat:", some "T", some "A", some "349,-", some "/x"⟩ with
          title := "-" } ∧
    arkParseHtml ⟨some "1 resultat:", some "T", none, some "349,-", some "/x"⟩
      = { arkParseHtml ⟨some "1 resultat:", some "T", some "A", some "349,-", some "/x"⟩ with
          authors := "-" } ∧
    arkParseHtml ⟨some "1 resultat:", some "T", some "A", none, some "/x"⟩
      = { arkParseHtml ⟨some "1 resultat:", some "T", some "A", some "349,-", some "/x"⟩ with
          price := 0, product_url := "-" } ∧
    norliParseHtml ⟨some "Produkter (1)", some ⟨some ⟨some "T2", some "/b"⟩⟩, none, some "299,-"⟩
      = { norliParseHtml ⟨some "Produkter (1)", some ⟨some ⟨some "T2", some "/b"⟩⟩, some "A2", some "299,-"⟩ with
          authors := "-" } ∧
    norliParseHtml ⟨some "Produkter (1)", some ⟨some ⟨some "T2", some "/b"⟩⟩, some "A2", none⟩
      = { norliParseHtml ⟨some "Produkter (1)", some ⟨some ⟨some "T2", some "/b"⟩⟩, some "A2", some "299,-"⟩ with
          price := 0 } ∧
    norliParseHtml ⟨some "Produkter (1)", some ⟨none⟩, some "A2", some "299,-"⟩
      = { norliParseHtml ⟨some "Produkter (1)", some ⟨some ⟨some "T2", some "/b"⟩⟩, some "A2", some "299,-"⟩ with
          title := "-", product_url := "-" } ∧
    norliParseHtml ⟨some "Produkter (1)", some ⟨some ⟨none, some "/b"⟩⟩, some "A2", some "299,-"⟩
      = sentinelResult ∧
    norliParseHtml ⟨some "Produkter (1)", some ⟨some ⟨some "T2", none⟩⟩, some "A2", some "299,-"⟩
      = sentinelResult :=
  C5_field_isolation "1 resultat:" "T" "A" "349,-" "/x" (by decide)
    "Produkter (1)" "T2" "/b" "A2" "299,-" (by decide)

/-- Oracle for the C6 counterexample run: Ark succeeds, the others raise. -/
def outcomeC6 : String → Option SiteResult := fun n =>
  if n == "ark.no" then some ⟨"Boken", "Ola Nordmann", 199, "https://www.ark.no/p/1"⟩ else none

/-- C6, counterexample: the direct entry `scrape_book_data` performs no
input validation at all — called with the empty ISBN it still scrapes every
site and returns a successful record; and the request handler happily
scrapes a syntactically arbitrary (invalid-as-ISBN) string, so "no scraping
is attempted for a missing or invalid ISBN on any entry path" fails. -/
theorem C6_counterexample :
    (scrape_book_data "" "2025-01-01 00:00:00" outcomeC6).message = "Data fetched successfully" ∧
    (scrape_book_data "" "2025-01-01 00:00:00" outcomeC6).sites
      = [("ark.no", ⟨"Boken", "Ola Nordmann", 199, "https://www.ark.no/p/1"⟩),
         ("norli.no", sentinelResult), ("adlibris.no", sentinelResult)] ∧
    (do_GET "/" [("ISBN", "not-an-isbn")] "2025-01-01 00:00:00" outcomeC6).isOkJson = true := by
  refine ⟨by decide, by decide, rfl⟩

/-- C6 (amended): only the HTTP request handler checks the input, and only
for presence: a request whose query carries no non-blank `ISBN` value is
answered with a distinct client-facing 400 error and no scraping happens;
no ISBN validity check exists anywhere, and the direct
`scrape_book_data` entry performs no validation at all — for any input
string it proceeds to scrape every registered site. -/
theorem C6_missing_isbn_handler_only (query : List (String × String)) (now isbn : String)
    (outcome : String → Option SiteResult) (h : parse_qs_get query "ISBN" = none) :
    do_GET "/" query now outcome = .clientError 400 "Missing ISBN parameter" ∧
    (scrape_book_data isbn now outcome).sites.map Prod.fst = siteNames := by
  constructor
  · unfold do_GET
    rw [if_neg (by decide), h]
  · simp [scrape_book_data_sites, siteNames]

/-- C6, witness: a query with only a blank `ISBN` value is rejected with
400, while a direct scrape of the empty ISBN still visits all three
sites. -/
theorem C6_missing_isbn_handler_only_witness :
    do_GET "/" [("ISBN", "")] "2025-01-01 00:00:00" (fun _ => none)
      = .clientError 400 "Missing ISBN parameter" ∧
    (scrape_book_data "" "2025-01-01 00:00:00" (fun _ => none)).sites.map Prod.fst = siteNames :=
  C6_missing_isbn_handler_only [("ISBN", "")] "2025-01-01 00:00:00" "" (fun _ => none) (by decide)

/-- C7, counterexample: the code normalizes price text with a global
`replace(',-', '')`, not a trailing-marker strip: on price text `"1,-2"`
(no trailing `,-`) the Ark adapter extracts `12`, while the claimed
trailing-only normalization yields `0`. -/
theorem C7_counterexample :
    arkParseHtml ⟨some "1 resultat:", some "T", some "A", some "1,-2", none⟩
      = ⟨"T", "A", 12, "-"⟩ ∧
    specTrailingPrice "1,-2" = 0 ∧
    (12 : Nat) ≠ 0 := by
  decide

/-- C7 (amended): price normalization removes every occurrence of the
`,-` marker (a global replace, not only trailing) and surrounding
whitespace, and parses the remainder only if it consists entirely of
digits, yielding 0 otherwise without raising; Ark and Norli normalize
identically, and on the spec's examples all three adapters give
`"349,-"` ↦ 349, `"N/A"` ↦ 0, `""` ↦ 0, while the non-trailing
`"1,-2"` ↦ 12. -/
theorem C7_price_replace_all :
    (∀ p : String,
      (arkParseHtml ⟨some "1 resultat:", none, none, some p, none⟩).price
        = (norliParseHtml ⟨some "Produkter (1)", some ⟨none⟩, none, some p⟩).price) ∧
    (arkParseHtml ⟨some "1 resultat:", none, none, some "349,-", none⟩).price = 349 ∧
    (arkParseHtml ⟨some "1 resultat:", none, none, some "N/A", none⟩).price = 0 ∧
    (arkParseHtml ⟨some "1 resultat:", none, none, some "", none⟩).price = 0 ∧
    (arkParseHtml ⟨some "1 resultat:", none, none, some "1,-2", none⟩).price = 12 ∧
    (norliParseHtml ⟨some "Produkter (1)", some ⟨none⟩, none, some "349,-"⟩).price = 349 ∧
    (norliParseHtml ⟨some "Produkter (1)", some ⟨none⟩, none, some "N/A"⟩).price = 0 ∧
    (norliParseHtml ⟨some "Produkter (1)", some ⟨none⟩, none, some ""⟩).price = 0 ∧
    (norliParseHtml ⟨some "Produkter (1)", some ⟨none⟩, none, some "1,-2"⟩).price = 12 ∧
    (adlibrisParseHtml true ⟨some "1 treff", some ⟨none, none, some "349,-"⟩⟩).price = 349 ∧
    (adlibrisParseHtml true ⟨some "1 treff", some ⟨none, none, some "N/A"⟩⟩).price = 0 ∧
    (adlibrisParseHtml true ⟨some "1 treff", some ⟨none, none, some ""⟩⟩).price = 0 ∧
    (adlibrisParseHtml true ⟨some "1 treff", some ⟨none, none, some "1,-2"⟩⟩).price = 12 := by
  refine ⟨fun p => rfl, ?_⟩
  decide

/-- C8: for every page whose results indicator does not establish "exactly
one match" — the indicator element is absent, or its (site-specific)
text does not report exactly one — each adapter returns the all-sentinel
result instead of extracting from the ambiguous page or raising. -/
theorem C8_requires_unique_result (sA : ArkSoup) (sN : NorliSoup) (w : Bool) (sAd : AdlibrisSoup)
    (hA : arkIndicatorOk sA = false) (hN : norliIndicatorOk sN = false)
    (hAd : adlibrisIndicatorOk sAd = false) :
    arkParseHtml sA = sentinelResult ∧ norliParseHtml sN = sentinelResult ∧
    adlibrisParseHtml w sAd = sentinelResult := by
  refine ⟨?_, ?_, ?_⟩
  · simp [arkParseHtml, arkBody, hA]
  · simp [norliParseHtml, norliBody, hN]
  · cases w <;> simp [adlibrisParseHtml, adlibrisBody, hAd]

/-- C8, witness: pages reporting zero, two, or no results at all are all
answered with the all-sentinel result. -/
theorem C8_requires_unique_result_witness :
    arkParseHtml ⟨some "0 resultater", some "T", some "A", some "349,-", some "/x"⟩
      = sentinelResult ∧
    norliParseHtml ⟨some "Produkter (2)", some ⟨some ⟨some "T", some "/b"⟩⟩, some "A", some "299,-"⟩
      = sentinelResult ∧
    adlibrisParseHtml true ⟨none, some ⟨some ⟨"T", some "/b"⟩, some "A", some "199,-"⟩⟩
      = sentinelResult :=
  C8_requires_unique_result _ _ true _ (by decide) (by decide) (by decide)

/-- C9: every completed orchestration run — including one where every site
degraded to the all-sentinel result — returns the complete record shape
(top-level keys `MESSAGE`, `ISBN`, `TIMESTAMP`, `SITES`, one `SITES` entry
per adapter) with `message` equal to the fixed string
`"Data fetched successfully"`; no partial-failure variant exists. -/
theorem C9_message_always_success (isbn now : String) (outcome : String → Option SiteResult) :
    (scrape_book_data isbn now outcome).message = "Data fetched successfully" ∧
    topLevelKeys (bookRecordJson (scrape_book_data isbn now outcome))
      = ["MESSAGE", "ISBN", "TIMESTAMP", "SITES"] ∧
    (scrape_book_data isbn now outcome).sites.map Prod.fst = siteNames := by
  refine ⟨rfl, rfl, ?_⟩
  simp [scrape_book_data_sites, siteNames]

/-- C10: the Adlibris adapter's only side effect is writing the entire
rendered HTML to `adlibris.html` in the current working directory, done
unconditionally before any extraction; a failed write makes the whole call
collapse to the all-sentinel result — even on a page with a valid unique
result, as the final conjunct shows — while the Ark and Norli adapters
perform no file write. -/
theorem C10_adlibris_file_write (htmlContent : String) (s : AdlibrisSoup) :
    adlibrisEffects htmlContent = [FileEffect.write "adlibris.html" htmlContent] ∧
    arkEffects = [] ∧
    norliEffects = [] ∧
    adlibrisParseHtml false s = sentinelResult ∧
    adlibrisParseHtml true ⟨some "1 treff", some ⟨some ⟨"T", some "/b"⟩, some "A", some "199,-"⟩⟩
      = ⟨"T", "A", 199, "https://www.adlibris.com/b"⟩ := by
  refine ⟨rfl, rfl, rfl, ?_, by decide⟩
  simp [adlibrisParseHtml, adlibrisBody]
